import Mathlib

set_option maxRecDepth 1000000

/-!
Shallow embedding of the `ejoyshopper` repository (two Python scripts:
`mymall_scraper.py` and `scripts/sync_products.py`) together with proofs
about the claims of its specification.

The first part embeds SHA-1 over UTF-8 byte sequences, which is what
`make_id` in `mymall_scraper.py` computes
(`hashlib.sha1(url.encode("utf-8")).hexdigest()`).
-/

namespace EJoy

/-- 2^32, the word modulus for SHA-1 arithmetic. -/
def w32 : Nat := 4294967296

/-- Rotate a 32-bit word (a `Nat` below `2^32`) left by `s` bits. -/
def rotl (s x : Nat) : Nat := (x * 2 ^ s + x / 2 ^ (32 - s)) % w32

/-- The sixteen lowercase hexadecimal digits, in order. -/
def hexDigits : List Char := "0123456789abcdef".data

/-- The hexadecimal digit of `n % 16`. -/
def hexChar (n : Nat) : Char := hexDigits.getD (n % 16) '0'

/-- Two lowercase hex characters for one byte. -/
def byteHex (b : Nat) : List Char := [hexChar (b / 16), hexChar b]

/-- Lowercase hex string of a byte sequence. -/
def bytesToHex (bs : List Nat) : String := String.mk (bs.flatMap byteHex)

/-- Big-endian 4-byte decomposition of a 32-bit word. -/
def word32Bytes (x : Nat) : List Nat :=
  [x / 2 ^ 24 % 256, x / 2 ^ 16 % 256, x / 2 ^ 8 % 256, x % 256]

/-- Big-endian 8-byte decomposition of a 64-bit value. -/
def word64Bytes (x : Nat) : List Nat := word32Bytes (x / w32) ++ word32Bytes x

/-- UTF-8 encoding of a single Unicode code point. -/
def utf8EncodeChar (c : Nat) : List Nat :=
  if c < 128 then [c]
  else if c < 2048 then [192 + c / 64, 128 + c % 64]
  else if c < 65536 then [224 + c / 4096, 128 + c / 64 % 64, 128 + c % 64]
  else [240 + c / 262144, 128 + c / 4096 % 64, 128 + c / 64 % 64, 128 + c % 64]

/-- UTF-8 encoding of a string, as the code's `url.encode("utf-8")`. -/
def utf8Encode (s : String) : List Nat :=
  s.data.flatMap (fun c => utf8EncodeChar c.toNat)

/-- SHA-1 padding: append `0x80`, zeros to 56 mod 64, then the 64-bit
big-endian bit length. -/
def sha1Pad (ms : List Nat) : List Nat :=
  ms ++ [128] ++ List.replicate ((119 - ms.length % 64) % 64) 0 ++ word64Bytes (8 * ms.length)

/-- The sixteen 32-bit big-endian words of one 64-byte block. -/
def blockWords (block : List Nat) : List Nat :=
  (List.range 16).map fun i =>
    block.getD (4 * i) 0 * 2 ^ 24 + block.getD (4 * i + 1) 0 * 2 ^ 16 +
      block.getD (4 * i + 2) 0 * 2 ^ 8 + block.getD (4 * i + 3) 0

/-- Message-schedule expansion of the sixteen block words to eighty. -/
def extendWords (ws : List Nat) : List Nat :=
  (List.range 64).foldl
    (fun acc _ =>
      let n := acc.length
      acc ++ [rotl 1 (acc.getD (n - 3) 0 ^^^ acc.getD (n - 8) 0 ^^^
        acc.getD (n - 14) 0 ^^^ acc.getD (n - 16) 0)])
    ws

/-- The SHA-1 round function for round `t`. -/
def sha1F (t b c d : Nat) : Nat :=
  if t < 20 then (b &&& c) ||| ((w32 - 1 - b) &&& d)
  else if t < 40 then b ^^^ c ^^^ d
  else if t < 60 then (b &&& c) ||| (b &&& d) ||| (c &&& d)
  else b ^^^ c ^^^ d

/-- The SHA-1 round constant for round `t`. -/
def sha1K (t : Nat) : Nat :=
  if t < 20 then 1518500249
  else if t < 40 then 1859775393
  else if t < 60 then 2400959708
  else 3395469782

/-- The five 32-bit chaining words of SHA-1. -/
structure Sha1State where
  h0 : Nat
  h1 : Nat
  h2 : Nat
  h3 : Nat
  h4 : Nat

/-- The SHA-1 initialization vector. -/
def sha1Init : Sha1State :=
  ⟨1732584193, 4023233417, 2562383102, 271733878, 3285377520⟩

/-- Compress one 64-byte block into the chaining state. -/
def processBlock (st : Sha1State) (block : List Nat) : Sha1State :=
  let ws := extendWords (blockWords block)
  let step := fun (acc : Nat × Nat × Nat × Nat × Nat) (t : Nat) =>
    let (a, b, c, d, e) := acc
    ((rotl 5 a + sha1F t b c d + e + sha1K t + ws.getD t 0) % w32,
      a, rotl 30 b, c, d)
  let r := (List.range 80).foldl step (st.h0, st.h1, st.h2, st.h3, st.h4)
  ⟨(st.h0 + r.1) % w32, (st.h1 + r.2.1) % w32, (st.h2 + r.2.2.1) % w32,
    (st.h3 + r.2.2.2.1) % w32, (st.h4 + r.2.2.2.2) % w32⟩

/-- Run SHA-1 over a padded message, block by block. -/
def sha1Blocks (ms : List Nat) : Sha1State :=
  let padded := sha1Pad ms
  (List.range (padded.length / 64)).foldl
    (fun st i => processBlock st ((padded.drop (64 * i)).take 64)) sha1Init

/-- The 20-byte SHA-1 digest of a byte sequence. -/
def sha1Digest (ms : List Nat) : List Nat :=
  let st := sha1Blocks ms
  word32Bytes st.h0 ++ word32Bytes st.h1 ++ word32Bytes st.h2 ++
    word32Bytes st.h3 ++ word32Bytes st.h4

/-- The lowercase-hex SHA-1 digest of a byte sequence
(`hashlib.sha1(...).hexdigest()`). -/
def sha1Hex (ms : List Nat) : String := bytesToHex (sha1Digest ms)

/-- `make_id` of `mymall_scraper.py`:
`hashlib.sha1(url.encode("utf-8")).hexdigest()`. -/
def make_id (url : String) : String := sha1Hex (utf8Encode url)

/-- Validation of the SHA-1 embedding against the standard test vector for
`"abc"`. -/
theorem sha1_test_vector_abc :
    make_id "abc" = "a9993e364706816aba3e25717850c26c9cd0d89d" := by decide

/-- Validation of the SHA-1 embedding against the standard test vector for
the empty string. -/
theorem sha1_test_vector_empty :
    make_id "" = "da39a3ee5e6b4b0d3255bfef95601890afd80709" := by decide

/-!
## Data model and effect traces

Both scripts are straight-line programs whose only effects are console
output, outbound HTTP requests, and the rows sent to the store.  We model a
run as a pure function from the run's inputs (environment variables,
command-line arguments, and the outcomes of the HTTP calls, which are
oracles supplied as parameters) to an explicit trace of those effects.
-/

/-- A JSON-serializable field value of an upsert payload row
(`json.dumps` maps Python `None` to `null`). -/
inductive Field where
  | str : String → Field
  | num : Int → Field
  | null : Field
deriving DecidableEq, Repr

/-- `json.dumps` image of an optional integer field. -/
def numOfOpt : Option Int → Field
  | none => Field.null
  | some n => Field.num n

/-- `json.dumps` image of an optional string field. -/
def strOfOpt : Option String → Field
  | none => Field.null
  | some s => Field.str s

/-- The `Product` dataclass of `mymall_scraper.py`. -/
structure Product where
  id : String
  title : String
  url : String
  price : Option Int
  currency : String
  image : Option String
  stock : Option Int
  source : String
deriving DecidableEq, Repr, Inhabited

/-- `dataclasses.asdict` on a `Product`, as serialized by `json.dumps`:
an ordered dictionary of the eight dataclass fields. -/
def asdict (p : Product) : List (String × Field) :=
  [("id", Field.str p.id), ("title", Field.str p.title),
    ("url", Field.str p.url), ("price", numOfOpt p.price),
    ("currency", Field.str p.currency), ("image", strOfOpt p.image),
    ("stock", numOfOpt p.stock), ("source", Field.str p.source)]

/-- Python truthiness of an optional environment-variable string:
`os.getenv` yields `None` when unset, and both `None` and `""` are falsy. -/
def truthy : Option String → Bool
  | none => false
  | some s => s != ""

/-- An outbound HTTP request, recording whether an explicit timeout was
passed at the call site. -/
structure HttpRequest where
  method : String
  url : String
  timeout : Option Nat
deriving DecidableEq, Repr

/-- Environment configuration read by `mymall_scraper.py`. -/
structure Env1 where
  supabaseUrl : Option String
  serviceKey : Option String

/-- Oracle for the outcome of the `requests.post` call in
`supabase_upsert_products`: either the call raises (network error) or a
response with a status code and body arrives
(`raise_for_status` raises for statuses in `[400, 600)`). -/
inductive PostOutcome where
  | raised : String → PostOutcome
  | response : Nat → String → PostOutcome

/-- Effect trace of `supabase_upsert_products` (script 1): console lines,
HTTP requests issued, payload rows sent, and whether an exception escaped. -/
structure Trace1 where
  output : List String
  requests : List HttpRequest
  sent : List (List (String × Field))
  raised : Bool

/-- `supabase_upsert_products` of `mymall_scraper.py`: skips when the
environment is unset or `requests` is missing; otherwise POSTs all rows
with `timeout=30` and catches every exception of the write. -/
def supabase_upsert_products (env : Env1) (requestsAvailable : Bool)
    (outcome : PostOutcome) (products : List Product) : Trace1 :=
  if !truthy env.supabaseUrl || !truthy env.serviceKey then
    ⟨["[INFO] 未設定 SUPABASE_URL / SUPABASE_SERVICE_ROLE_KEY，略過寫入 Supabase"],
      [], [], false⟩
  else if !requestsAvailable then
    ⟨["[INFO] 未安裝 requests，略過寫入 Supabase（pip install requests 可啟用）"],
      [], [], false⟩
  else
    let req : HttpRequest :=
      ⟨"POST", env.supabaseUrl.getD "" ++ "/rest/v1/products", some 30⟩
    let rows := products.map asdict
    match outcome with
    | PostOutcome.raised msg =>
      ⟨["[Supabase] upsert 失敗: " ++ msg], [req], rows, false⟩
    | PostOutcome.response s body =>
      if s < 400 then
        ⟨["[Supabase] upsert " ++ toString products.length ++ " rows 成功"],
          [req], rows, false⟩
      else
        ⟨["[Supabase] upsert 失敗: " ++ toString s,
          "[Supabase] response: " ++ toString s ++ " " ++ body.take 400],
          [req], rows, false⟩

/-- The `--mode` argument of script 1 (`choices=["scrape", "api"]`). -/
inductive Mode where
  | scrape : Mode
  | api : Mode
deriving DecidableEq

/-- The hardcoded member identifier of script 1. -/
def DEFAULT_MEMBER : String := "af000049855"

/-- The hardcoded product URL of the `scrape` branch of `main`. -/
def scrapeUrl : String :=
  "https://www.mymall.com.tw/pro-123?member=" ++ DEFAULT_MEMBER

/-- The hardcoded product URL of the `api` branch of `main`. -/
def apiModeUrl : String := "https://www.mymall.com.tw/pro-456"

/-- The product list `main` of script 1 builds for each mode. -/
def buildProducts : Mode → List Product
  | Mode.scrape =>
    [⟨make_id scrapeUrl, "測試商品", scrapeUrl, some 299, "TWD", none,
      some 100, "scrape"⟩]
  | Mode.api =>
    [⟨make_id apiModeUrl, "API 測試商品", apiModeUrl, some 499, "TWD", none,
      some 50, "api"⟩]

/-- Observable result of a whole run of script 1. -/
structure RunResult1 where
  exitCode : Nat
  output : List String
  requests : List HttpRequest
  sent : List (List (String × Field))

/-- The empty effect trace (write step not reached). -/
def emptyTrace1 : Trace1 := ⟨[], [], [], false⟩

/-- `main` of `mymall_scraper.py`: build the product list for the mode,
upsert only when `--insert` was given and the list is nonempty, then print
the success line and the titles and return `0`.  An uncaught exception
would make the process exit nonzero, hence the `raised` guard. -/
def mainRun (mode : Mode) (insert : Bool) (env : Env1)
    (requestsAvailable : Bool) (outcome : PostOutcome) : RunResult1 :=
  let products := buildProducts mode
  let tr :=
    if insert && !products.isEmpty then
      supabase_upsert_products env requestsAvailable outcome products
    else emptyTrace1
  ⟨if tr.raised then 1 else 0,
    tr.output ++ ["✅ 執行成功，共 " ++ toString products.length ++ " 筆商品"]
      ++ products.map (fun p => "- " ++ p.title),
    tr.requests, tr.sent⟩

end EJoy


namespace EJoy

/-!
## Script 2: `scripts/sync_products.py`

Raw source records are JSON objects, modelled as ordered association
lists (Python dictionaries preserve insertion order; setting a fresh key
appends it, setting an existing key overwrites it in place).
-/

/-- A raw product record as fetched from the source API. -/
abbrev RawRecord := List (String × Field)

/-- Environment configuration read at module init of script 2. -/
structure Env2 where
  supabaseUrl : Option String
  supabaseKey : Option String
  memberId : Option String
  apiUrl : Option String

/-- The startup check `not all([SUPABASE_URL, SUPABASE_KEY, MEMBER_ID,
API_URL])`: true when any of the four variables is unset or empty. -/
def env2Missing (e : Env2) : Bool :=
  !(truthy e.supabaseUrl && truthy e.supabaseKey && truthy e.memberId
    && truthy e.apiUrl)

/-- Oracle for the outcome of the `requests.get` fetch: either a
`RequestException` (network error, non-2xx via `raise_for_status`, or a
JSON decode error) or a parsed body whose `items` list is `items`
(`.get('items', [])` yields `[]` when the key is absent). -/
inductive FetchOutcome where
  | reqError : String → FetchOutcome
  | ok : List RawRecord → FetchOutcome

/-- Result of `fetch_products`: the records returned, the log lines, and
the HTTP requests issued. -/
structure FetchResult where
  items : List RawRecord
  output : List String
  requests : List HttpRequest

/-- `fetch_products` of `sync_products.py`: one GET with no explicit
timeout; any `RequestException` is caught, logged and turned into `[]`. -/
def fetch_products (apiUrl : String) (outcome : FetchOutcome) : FetchResult :=
  let req : HttpRequest := ⟨"GET", apiUrl, none⟩
  match outcome with
  | FetchOutcome.reqError msg =>
    ⟨[], ["Fetching products from API: " ++ apiUrl,
      "Error fetching products from API: " ++ msg], [req]⟩
  | FetchOutcome.ok items =>
    ⟨items, ["Fetching products from API: " ++ apiUrl], [req]⟩

/-- Oracle for the store client's response object, which the code probes
through its `data` and `error` attributes. -/
structure StoreResponse where
  returnedRows : List RawRecord
  errorMsg : Option String

/-- `product['member_id'] = MEMBER_ID`: overwrite the key in place when
present, append it otherwise. -/
def addMember (m : String) (r : RawRecord) : RawRecord :=
  if (r.lookup "member_id").isSome then
    r.map (fun kv => if kv.1 = "member_id" then (kv.1, Field.str m) else kv)
  else
    r ++ [("member_id", Field.str m)]

/-- Effect trace of `upsert_products` (script 2). -/
structure Trace2 where
  output : List String
  requests : List HttpRequest
  sent : List RawRecord
  raised : Bool

/-- `upsert_products` of `sync_products.py`: early-out on an empty list;
otherwise mutate every record by setting `member_id`, send them all in one
store call (no explicit timeout), and log success when `response.data` is
truthy, an error otherwise. -/
def upsert_products (supabaseUrl memberId : String) (resp : StoreResponse)
    (products : List RawRecord) : Trace2 :=
  if products.isEmpty then
    ⟨["No products to upsert."], [], [], false⟩
  else
    let rows := products.map (addMember memberId)
    let req : HttpRequest := ⟨"POST", supabaseUrl ++ "/rest/v1/products", none⟩
    let before := ["Upserting " ++ toString products.length
      ++ " products into Supabase..."]
    if !resp.returnedRows.isEmpty then
      ⟨before ++ ["Successfully upserted " ++ toString resp.returnedRows.length
        ++ " products."], [req], rows, false⟩
    else
      ⟨before ++ ["Failed to upsert products. Response: "
        ++ resp.errorMsg.getD "None"], [req], rows, false⟩

/-- Observable result of a whole run of script 2. -/
structure RunResult2 where
  exitCode : Nat
  output : List String
  requests : List HttpRequest
  sent : List RawRecord

/-- A whole run of `sync_products.py`: abort with exit code 1 when any
required environment variable is missing; otherwise fetch, then either
upsert the fetched records or warn that none were fetched, and finish with
exit code 0 (no exception escapes). -/
def script2Run (env : Env2) (fetchOut : FetchOutcome)
    (resp : StoreResponse) : RunResult2 :=
  if env2Missing env then
    ⟨1, ["Missing one or more required environment variables."], [], []⟩
  else
    let f := fetch_products (env.apiUrl.getD "") fetchOut
    if f.items.isEmpty then
      ⟨0, f.output ++ ["No products fetched. Exiting."], f.requests, []⟩
    else
      let tr := upsert_products (env.supabaseUrl.getD "")
        (env.memberId.getD "") resp f.items
      ⟨if tr.raised then 1 else 0, f.output ++ tr.output,
        f.requests ++ tr.requests, tr.sent⟩

/-- The eight field names of the `Product` data model, in declaration
order. -/
def eightFieldNames : List String :=
  ["id", "title", "url", "price", "currency", "image", "stock", "source"]

/-- A fully configured environment for script 2, used in concrete runs. -/
def cexEnv2 : Env2 :=
  ⟨some "https://store.example", some "key", some "m-1", some "https://api.example"⟩

/-- A raw record carrying an `id` that is not the hash of its `url`. -/
def cexRecord : RawRecord := [("id", Field.str "x"), ("url", Field.str "u")]

/-- A raw record with no `url` field at all. -/
def noUrlRecord : RawRecord := [("id", Field.str "x"), ("title", Field.str "t")]

/-- A raw record carrying exactly the eight data-model fields. -/
def fullRecord : RawRecord :=
  [("id", Field.str "a"), ("title", Field.str "t"), ("url", Field.str "u"),
    ("price", Field.num 1), ("currency", Field.str "TWD"),
    ("image", Field.null), ("stock", Field.null), ("source", Field.str "api")]

/-- A store response reporting no data back (the code's failure path). -/
def cexResp : StoreResponse := ⟨[], none⟩

end EJoy

namespace EJoy

/-!
## Helper lemmas
-/

/-- Hex encoding yields two characters per byte. -/
theorem length_flatMap_byteHex (bs : List Nat) :
    (bs.flatMap byteHex).length = 2 * bs.length := by
  induction bs with
  | nil => rfl
  | cons b t ih =>
    rw [List.flatMap_cons, List.length_append, ih, List.length_cons]
    have hb : (byteHex b).length = 2 := rfl
    rw [hb]
    ring

/-- A SHA-1 digest has twenty bytes. -/
theorem sha1Digest_length (ms : List Nat) : (sha1Digest ms).length = 20 := by
  simp [sha1Digest, word32Bytes]

/-- A SHA-1 hex digest has forty characters. -/
theorem sha1Hex_length (ms : List Nat) : (sha1Hex ms).length = 40 := by
  show (String.mk ((sha1Digest ms).flatMap byteHex)).length = 40
  rw [String.length_mk, length_flatMap_byteHex, sha1Digest_length]

/-- Every character `hexChar` produces is a lowercase hex digit. -/
theorem hexChar_mem (n : Nat) : hexChar n ∈ hexDigits := by
  have hlen : hexDigits.length = 16 := by decide
  have h : n % 16 < hexDigits.length := by
    rw [hlen]
    exact Nat.mod_lt _ (by norm_num)
  rw [hexChar, List.getD_eq_getElem hexDigits '0' h]
  exact List.getElem_mem h

/-- Every character of a SHA-1 hex digest is a lowercase hex digit. -/
theorem sha1Hex_chars (ms : List Nat) :
    ∀ c ∈ (sha1Hex ms).data, c ∈ hexDigits := by
  intro c hc
  have hc2 : c ∈ (sha1Digest ms).flatMap byteHex := hc
  rw [List.mem_flatMap] at hc2
  obtain ⟨b, _, hb⟩ := hc2
  simp only [byteHex, List.mem_cons, List.not_mem_nil, or_false] at hb
  rcases hb with h | h <;> (subst h; exact hexChar_mem _)

/-- Appending the fresh `member_id` pair does not change any other key. -/
theorem lookup_append_member (m k : String) (r : RawRecord)
    (hk : (k == "member_id") = false) :
    (r ++ [("member_id", Field.str m)]).lookup k = r.lookup k := by
  induction r with
  | nil => simp [List.lookup, hk]
  | cons a t ih =>
    obtain ⟨a1, a2⟩ := a
    simp only [List.cons_append, List.lookup]
    cases h : k == a1 <;> simp [h, ih]

/-- Overwriting the `member_id` value in place does not change any other
key. -/
theorem lookup_map_member (m k : String) (r : RawRecord)
    (hk : (k == "member_id") = false) :
    (r.map (fun kv => if kv.1 = "member_id" then (kv.1, Field.str m) else kv)).lookup k
      = r.lookup k := by
  induction r with
  | nil => rfl
  | cons a t ih =>
    obtain ⟨a1, a2⟩ := a
    simp only [List.map_cons]
    by_cases h1 : a1 = "member_id"
    · rw [if_pos h1]
      subst h1
      simp only [List.lookup, hk]
      exact ih
    · rw [if_neg h1]
      simp only [List.lookup]
      cases h3 : k == a1
      · exact ih
      · rfl

/-- Setting `member_id` leaves every other field of a record unchanged. -/
theorem lookup_addMember_ne (m k : String) (r : RawRecord)
    (hk : (k == "member_id") = false) :
    (addMember m r).lookup k = r.lookup k := by
  unfold addMember
  cases h : (r.lookup "member_id").isSome
  · rw [if_neg Bool.false_ne_true]
    exact lookup_append_member m k r hk
  · rw [if_pos rfl]
    exact lookup_map_member m k r hk

/-- After overwriting it in place, `member_id` holds the member value. -/
theorem lookup_map_member_self (m : String) (r : RawRecord)
    (h : (r.lookup "member_id").isSome = true) :
    (r.map (fun kv => if kv.1 = "member_id" then (kv.1, Field.str m) else kv)).lookup "member_id"
      = some (Field.str m) := by
  induction r with
  | nil => simp [List.lookup] at h
  | cons a t ih =>
    obtain ⟨a1, a2⟩ := a
    simp only [List.map_cons]
    by_cases h1 : a1 = "member_id"
    · rw [if_pos h1]
      subst h1
      simp [List.lookup]
    · rw [if_neg h1]
      have h3 : ("member_id" == a1) = false :=
        beq_eq_false_iff_ne.mpr (Ne.symm h1)
      simp only [List.lookup, h3] at h ⊢
      exact ih h

/-- After appending it, `member_id` holds the member value. -/
theorem lookup_append_member_self (m : String) (r : RawRecord)
    (h : (r.lookup "member_id").isSome = false) :
    (r ++ [("member_id", Field.str m)]).lookup "member_id"
      = some (Field.str m) := by
  induction r with
  | nil => simp [List.lookup]
  | cons a t ih =>
    obtain ⟨a1, a2⟩ := a
    simp only [List.lookup] at h
    simp only [List.cons_append, List.lookup]
    cases h3 : ("member_id" == a1)
    · simp only [h3] at h ⊢
      exact ih h
    · simp [h3] at h

/-- After `addMember`, the `member_id` field holds the member value. -/
theorem lookup_addMember_self (m : String) (r : RawRecord) :
    (addMember m r).lookup "member_id" = some (Field.str m) := by
  unfold addMember
  cases h : (r.lookup "member_id").isSome
  · rw [if_neg Bool.false_ne_true]
    exact lookup_append_member_self m r h
  · rw [if_pos rfl]
    exact lookup_map_member_self m r h

/-- Script 1's upsert client never lets an exception escape. -/
theorem upsert1_raised (env : Env1) (ra : Bool) (o : PostOutcome)
    (ps : List Product) :
    (supabase_upsert_products env ra o ps).raised = false := by
  unfold supabase_upsert_products
  split
  · rfl
  · split
    · rfl
    · cases o with
      | raised msg => rfl
      | response s body =>
        dsimp only
        split <;> rfl

/-- Script 1's `main` always returns exit code 0. -/
theorem mainRun_exitCode (mode : Mode) (ins : Bool) (env : Env1) (ra : Bool)
    (o : PostOutcome) : (mainRun mode ins env ra o).exitCode = 0 := by
  unfold mainRun
  dsimp only
  split
  · simp [upsert1_raised]
  · rfl

/-- Script 2's upsert function never lets an exception escape (under the
code's own assumption that the store client returns a response object). -/
theorem upsert2_raised (su m : String) (resp : StoreResponse)
    (ps : List RawRecord) :
    (upsert_products su m resp ps).raised = false := by
  unfold upsert_products
  split
  · rfl
  · dsimp only
    split <;> rfl

/-- Script 2 exits 0 whenever its required configuration is present. -/
theorem script2Run_exitCode (env : Env2) (f : FetchOutcome)
    (resp : StoreResponse) (h : env2Missing env = false) :
    (script2Run env f resp).exitCode = 0 := by
  unfold script2Run
  rw [h, if_neg Bool.false_ne_true]
  dsimp only
  split
  · rfl
  · simp [upsert2_raised]

/-- Script 2 exits 1 when required configuration is missing at startup. -/
theorem script2Run_exitCode_missing (env : Env2) (f : FetchOutcome)
    (resp : StoreResponse) (h : env2Missing env = true) :
    (script2Run env f resp).exitCode = 1 := by
  unfold script2Run
  rw [h, if_pos rfl]

end EJoy

namespace EJoy

/-!
## Characterizations of the configured write path
-/

/-- With both variables configured and `requests` installed, a network
error during the POST is caught: one failure line, one request with the
rows as payload, no escaping exception. -/
theorem upsert1_configured_raised (env : Env1) (msg : String)
    (ps : List Product) (h1 : truthy env.supabaseUrl = true)
    (h2 : truthy env.serviceKey = true) :
    supabase_upsert_products env true (PostOutcome.raised msg) ps =
      ⟨["[Supabase] upsert 失敗: " ++ msg],
        [⟨"POST", env.supabaseUrl.getD "" ++ "/rest/v1/products", some 30⟩],
        ps.map asdict, false⟩ := by
  unfold supabase_upsert_products
  rw [h1, h2, if_neg (by decide), if_neg (by decide)]

/-- With both variables configured, a non-2xx response makes
`raise_for_status` raise; the handler logs the failure and the response,
and nothing escapes. -/
theorem upsert1_configured_response_fail (env : Env1) (s : Nat)
    (body : String) (ps : List Product) (h1 : truthy env.supabaseUrl = true)
    (h2 : truthy env.serviceKey = true) (hs : 400 ≤ s) :
    supabase_upsert_products env true (PostOutcome.response s body) ps =
      ⟨["[Supabase] upsert 失敗: " ++ toString s,
        "[Supabase] response: " ++ toString s ++ " " ++ body.take 400],
        [⟨"POST", env.supabaseUrl.getD "" ++ "/rest/v1/products", some 30⟩],
        ps.map asdict, false⟩ := by
  unfold supabase_upsert_products
  rw [h1, h2, if_neg (by decide), if_neg (by decide)]
  dsimp only
  rw [if_neg (by omega : ¬s < 400)]

/-- Whenever the configured write path is reached, the rows sent are
exactly the serialized products. -/
theorem upsert1_sent (env : Env1) (o : PostOutcome) (ps : List Product)
    (h1 : truthy env.supabaseUrl = true) (h2 : truthy env.serviceKey = true) :
    (supabase_upsert_products env true o ps).sent = ps.map asdict := by
  unfold supabase_upsert_products
  rw [h1, h2, if_neg (by decide), if_neg (by decide)]
  cases o with
  | raised msg => rfl
  | response s body =>
    dsimp only
    split <;> rfl

/-- Whenever the configured write path is reached, exactly one POST with a
30-second timeout is issued. -/
theorem upsert1_requests (env : Env1) (o : PostOutcome) (ps : List Product)
    (h1 : truthy env.supabaseUrl = true) (h2 : truthy env.serviceKey = true) :
    (supabase_upsert_products env true o ps).requests =
      [⟨"POST", env.supabaseUrl.getD "" ++ "/rest/v1/products", some 30⟩] := by
  unfold supabase_upsert_products
  rw [h1, h2, if_neg (by decide), if_neg (by decide)]
  cases o with
  | raised msg => rfl
  | response s body =>
    dsimp only
    split <;> rfl

/-- The built product list is never empty: each mode hardcodes one
record. -/
theorem buildProducts_ne (mode : Mode) : (buildProducts mode).isEmpty = false := by
  cases mode <;> rfl

/-- With the write enabled and configured, `main` sends exactly the
serialized products it built. -/
theorem mainRun_sent (mode : Mode) (env : Env1) (o : PostOutcome)
    (h1 : truthy env.supabaseUrl = true) (h2 : truthy env.serviceKey = true) :
    (mainRun mode true env true o).sent = (buildProducts mode).map asdict := by
  unfold mainRun
  dsimp only
  have hc : (true && !(buildProducts mode).isEmpty) = true := by
    rw [buildProducts_ne]
    rfl
  rw [if_pos hc]
  exact upsert1_sent _ _ _ h1 h2

/-- On a nonempty list, script 2's upsert sends every record with
`member_id` set and nothing else changed. -/
theorem upsert2_sent (su m : String) (resp : StoreResponse)
    (ps : List RawRecord) (h : ps.isEmpty = false) :
    (upsert_products su m resp ps).sent = ps.map (addMember m) := by
  unfold upsert_products
  rw [h, if_neg Bool.false_ne_true]
  dsimp only
  split <;> rfl

/-- On a nonempty list, script 2's upsert issues exactly one store call,
with no explicit timeout. -/
theorem upsert2_requests (su m : String) (resp : StoreResponse)
    (ps : List RawRecord) (h : ps.isEmpty = false) :
    (upsert_products su m resp ps).requests =
      [⟨"POST", su ++ "/rest/v1/products", none⟩] := by
  unfold upsert_products
  rw [h, if_neg Bool.false_ne_true]
  dsimp only
  split <;> rfl

/-!
## Claims
-/

/-- C2: for every URL string `u`, `make_id u` is a pure deterministic
function of `u` — it is definitionally the SHA-1 hex digest of the UTF-8
bytes of `u`, its output always has exactly 40 characters, and every
character is a lowercase hexadecimal digit. -/
theorem make_id_deterministic_fixed_hex (u : String) :
    make_id u = sha1Hex (utf8Encode u) ∧ (make_id u).length = 40 ∧
    ∀ c ∈ (make_id u).data, c ∈ hexDigits :=
  ⟨rfl, sha1Hex_length _, sha1Hex_chars _⟩

/-- C2 witness: the property instantiated at the concrete URL string
`"abc"`, with the inner membership hypothesis discharged by evaluation. -/
theorem make_id_deterministic_fixed_hex_witness :
    make_id "abc" = sha1Hex (utf8Encode "abc") ∧
    (make_id "abc").length = 40 ∧ 'a' ∈ hexDigits :=
  ⟨(make_id_deterministic_fixed_hex "abc").1,
    (make_id_deterministic_fixed_hex "abc").2.1,
    (make_id_deterministic_fixed_hex "abc").2.2 'a' (by decide)⟩

/-- C3: when either store connection parameter is absent (unset or empty),
script 1's upsert client performs no write, logs the informational skip
notice, and returns without raising, and the run still exits 0 and prints
the success line for the records it built. -/
theorem upsert_skipped_when_unconfigured (mode : Mode) (env : Env1)
    (ra : Bool) (o : PostOutcome)
    (h : truthy env.supabaseUrl = false ∨ truthy env.serviceKey = false) :
    (supabase_upsert_products env ra o (buildProducts mode)).requests = [] ∧
    (supabase_upsert_products env ra o (buildProducts mode)).raised = false ∧
    "[INFO] 未設定 SUPABASE_URL / SUPABASE_SERVICE_ROLE_KEY，略過寫入 Supabase"
      ∈ (supabase_upsert_products env ra o (buildProducts mode)).output ∧
    (mainRun mode true env ra o).requests = [] ∧
    (mainRun mode true env ra o).exitCode = 0 ∧
    ("✅ 執行成功，共 " ++ toString (buildProducts mode).length ++ " 筆商品")
      ∈ (mainRun mode true env ra o).output := by
  have hcond : (!truthy env.supabaseUrl || !truthy env.serviceKey) = true := by
    rcases h with h | h <;> simp [h]
  have hskip : supabase_upsert_products env ra o (buildProducts mode) =
      ⟨["[INFO] 未設定 SUPABASE_URL / SUPABASE_SERVICE_ROLE_KEY，略過寫入 Supabase"],
        [], [], false⟩ := by
    unfold supabase_upsert_products
    rw [if_pos hcond]
  have hc : (true && !(buildProducts mode).isEmpty) = true := by
    rw [buildProducts_ne]
    rfl
  have hmain : mainRun mode true env ra o =
      ⟨0, (supabase_upsert_products env ra o (buildProducts mode)).output
          ++ ["✅ 執行成功，共 " ++ toString (buildProducts mode).length ++ " 筆商品"]
          ++ (buildProducts mode).map (fun p => "- " ++ p.title),
        (supabase_upsert_products env ra o (buildProducts mode)).requests,
        (supabase_upsert_products env ra o (buildProducts mode)).sent⟩ := by
    unfold mainRun
    dsimp only
    rw [if_pos hc, hskip]
    rfl
  refine ⟨by rw [hskip], by rw [hskip], by rw [hskip]; exact List.mem_singleton.mpr rfl,
    by rw [hmain, hskip], by rw [hmain], ?_⟩
  rw [hmain]
  simp

/-- C3 witness: the property at the concrete run with both variables
unset, mode `scrape`. -/
theorem upsert_skipped_when_unconfigured_witness :
    (supabase_upsert_products ⟨none, none⟩ true (PostOutcome.response 200 "")
      (buildProducts Mode.scrape)).requests = [] ∧
    (supabase_upsert_products ⟨none, none⟩ true (PostOutcome.response 200 "")
      (buildProducts Mode.scrape)).raised = false ∧
    "[INFO] 未設定 SUPABASE_URL / SUPABASE_SERVICE_ROLE_KEY，略過寫入 Supabase"
      ∈ (supabase_upsert_products ⟨none, none⟩ true (PostOutcome.response 200 "")
        (buildProducts Mode.scrape)).output ∧
    (mainRun Mode.scrape true ⟨none, none⟩ true (PostOutcome.response 200 "")).requests = [] ∧
    (mainRun Mode.scrape true ⟨none, none⟩ true (PostOutcome.response 200 "")).exitCode = 0 ∧
    ("✅ 執行成功，共 " ++ toString (buildProducts Mode.scrape).length ++ " 筆商品")
      ∈ (mainRun Mode.scrape true ⟨none, none⟩ true (PostOutcome.response 200 "")).output :=
  upsert_skipped_when_unconfigured Mode.scrape ⟨none, none⟩ true
    (PostOutcome.response 200 "") (Or.inl rfl)

/-- C7: script 1 exits 0 on every run; script 2 exits 0 whenever its
required environment variables are all present, and exits 1 when any of
them is missing at startup. -/
theorem process_exit_codes (mode : Mode) (insert : Bool) (env : Env1)
    (ra : Bool) (o : PostOutcome) (env2 env2b : Env2) (f fb : FetchOutcome)
    (resp respb : StoreResponse) (h : env2Missing env2 = false)
    (hb : env2Missing env2b = true) :
    (mainRun mode insert env ra o).exitCode = 0 ∧
    (script2Run env2 f resp).exitCode = 0 ∧
    (script2Run env2b fb respb).exitCode = 1 :=
  ⟨mainRun_exitCode mode insert env ra o,
    script2Run_exitCode env2 f resp h,
    script2Run_exitCode_missing env2b fb respb hb⟩

/-- C7 witness: the exit codes at a concrete configured run and a concrete
run with all variables missing. -/
theorem process_exit_codes_witness :
    (mainRun Mode.api false ⟨none, none⟩ false (PostOutcome.raised "e")).exitCode = 0 ∧
    (script2Run cexEnv2 (FetchOutcome.ok []) cexResp).exitCode = 0 ∧
    (script2Run ⟨none, none, none, none⟩ (FetchOutcome.ok []) cexResp).exitCode = 1 :=
  process_exit_codes Mode.api false ⟨none, none⟩ false (PostOutcome.raised "e")
    cexEnv2 ⟨none, none, none, none⟩ (FetchOutcome.ok []) (FetchOutcome.ok [])
    cexResp cexResp (by decide) (by decide)

/-- C10: in script 1, when `--insert` is not given or the built product
list is empty, no upsert happens: the run issues no outbound request,
sends no rows, and returns 0. -/
theorem no_insert_no_network (mode : Mode) (insert : Bool) (env : Env1)
    (ra : Bool) (o : PostOutcome)
    (h : insert = false ∨ buildProducts mode = []) :
    (mainRun mode insert env ra o).requests = [] ∧
    (mainRun mode insert env ra o).sent = [] ∧
    (mainRun mode insert env ra o).exitCode = 0 := by
  rcases h with h | h <;> refine ⟨?_, ?_, mainRun_exitCode mode insert env ra o⟩ <;>
    simp [mainRun, h, emptyTrace1]

/-- C10 witness: the property at a concrete run without `--insert`. -/
theorem no_insert_no_network_witness :
    (mainRun Mode.scrape false
      ⟨some "https://store.example", some "key"⟩ true (PostOutcome.response 200 "")).requests = [] ∧
    (mainRun Mode.scrape false
      ⟨some "https://store.example", some "key"⟩ true (PostOutcome.response 200 "")).sent = [] ∧
    (mainRun Mode.scrape false
      ⟨some "https://store.example", some "key"⟩ true (PostOutcome.response 200 "")).exitCode = 0 :=
  no_insert_no_network Mode.scrape false ⟨some "https://store.example", some "key"⟩
    true (PostOutcome.response 200 "") (Or.inl rfl)

end EJoy

namespace EJoy

/-- C1 counterexample: script 2 sends records exactly as fetched (plus
`member_id`), so a record whose `id` is not the hash of its `url` is sent
unchanged: the run sends a record with `url` `"u"` and `id` `"x"`, while
the deterministic hash of `"u"` differs from `"x"`. -/
theorem id_not_hash_of_url_in_script2 :
    ((script2Run cexEnv2 (FetchOutcome.ok [cexRecord]) cexResp).sent.getD 0 []).lookup "url"
      = some (Field.str "u") ∧
    ((script2Run cexEnv2 (FetchOutcome.ok [cexRecord]) cexResp).sent.getD 0 []).lookup "id"
      = some (Field.str "x") ∧
    "x" ≠ make_id "u" :=
  ⟨by decide, by decide, by decide⟩

/-- C1 (amended): in script 1, every Product record sent to the store has
`id` equal to the deterministic SHA-1 hex hash of its `url`, and any two
such records with the same `url` receive the same `id`; script 2 forwards
records (and their `id` fields) exactly as the source API supplied them. -/
theorem id_is_hash_of_url_in_script1 (mode : Mode) (p q : Product)
    (hp : p ∈ buildProducts mode) (hq : q ∈ buildProducts mode)
    (huv : p.url = q.url) :
    p.id = make_id p.url ∧ p.id = q.id := by
  cases mode <;>
    (simp only [buildProducts, List.mem_singleton] at hp hq
     subst hp
     subst hq
     exact ⟨rfl, rfl⟩)

/-- C1 witness: the invariant at the concrete record built in `scrape`
mode. -/
theorem id_is_hash_of_url_in_script1_witness :
    ((buildProducts Mode.scrape).headD default).id
      = make_id ((buildProducts Mode.scrape).headD default).url ∧
    ((buildProducts Mode.scrape).headD default).id
      = ((buildProducts Mode.scrape).headD default).id := by
  have hmem : (buildProducts Mode.scrape).headD default ∈ buildProducts Mode.scrape := by
    simp [buildProducts]
  exact id_is_hash_of_url_in_script1 Mode.scrape _ _ hmem hmem rfl

/-- C5 counterexample: script 2 performs no url validation: a fetched
record with no `url` field at all still yields an output record sent to
the store, with no warning. -/
theorem no_url_record_still_sent :
    (script2Run cexEnv2 (FetchOutcome.ok [noUrlRecord]) cexResp).sent ≠ [] ∧
    noUrlRecord.lookup "url" = none ∧
    ((script2Run cexEnv2 (FetchOutcome.ok [noUrlRecord]) cexResp).sent.getD 0 []).lookup "url"
      = none :=
  ⟨by decide, by decide, by decide⟩

/-- C5 (amended): the code has no per-record normalization or url check:
on a nonempty fetch result, script 2 sends every raw record (with
`member_id` set), whether or not it has a `url`, so every raw record —
not only those with a url — yields an output record. -/
theorem every_record_sent_without_url_check (su m : String)
    (resp : StoreResponse) (ps : List RawRecord) (h : ps ≠ []) :
    (upsert_products su m resp ps).sent = ps.map (addMember m) ∧
    (upsert_products su m resp ps).sent.length = ps.length := by
  have hne : ps.isEmpty = false := by
    cases ps with
    | nil => exact absurd rfl h
    | cons a t => rfl
  have h1 := upsert2_sent su m resp ps hne
  exact ⟨h1, by rw [h1, List.length_map]⟩

/-- C5 witness: a record without a `url` still produces exactly one sent
record. -/
theorem every_record_sent_without_url_check_witness :
    (upsert_products "https://store.example" "m-1" cexResp [noUrlRecord]).sent
      = [noUrlRecord].map (addMember "m-1") ∧
    (upsert_products "https://store.example" "m-1" cexResp [noUrlRecord]).sent.length
      = [noUrlRecord].length :=
  every_record_sent_without_url_check "https://store.example" "m-1" cexResp
    [noUrlRecord] (by decide)

/-- C6 counterexample: script 2's upsert payload rows are not limited to
the eight data-model fields: a fetched record carrying exactly those eight
fields is sent with a ninth field, `member_id`. -/
theorem payload_has_ninth_field :
    ((script2Run cexEnv2 (FetchOutcome.ok [fullRecord]) cexResp).sent.getD 0 []).map Prod.fst
      = eightFieldNames ++ ["member_id"] ∧
    eightFieldNames ++ ["member_id"] ≠ eightFieldNames :=
  ⟨by decide, by decide⟩

/-- C6 (amended): script 1's serialized payload rows contain exactly the
eight data-model fields in order, with absent optional fields serialized
as `null` rather than omitted, and the rows sent are exactly the
serialized products; script 2 additionally appends a `member_id` field to
whatever fields the source records carry. -/
theorem payload_shape_script1 (p : Product) (env : Env1) (o : PostOutcome)
    (products : List Product)
    (h1 : truthy env.supabaseUrl = true) (h2 : truthy env.serviceKey = true)
    (hp : p.price = none) (hi : p.image = none) (hs : p.stock = none) :
    (asdict p).map Prod.fst = eightFieldNames ∧
    (asdict p).lookup "price" = some Field.null ∧
    (asdict p).lookup "image" = some Field.null ∧
    (asdict p).lookup "stock" = some Field.null ∧
    (supabase_upsert_products env true o products).sent = products.map asdict := by
  refine ⟨rfl, ?_, ?_, ?_, upsert1_sent env o products h1 h2⟩
  · have hpr : (asdict p).lookup "price" = some (numOfOpt p.price) := rfl
    rw [hpr, hp]
    rfl
  · have him : (asdict p).lookup "image" = some (strOfOpt p.image) := rfl
    rw [him, hi]
    rfl
  · have hst : (asdict p).lookup "stock" = some (numOfOpt p.stock) := rfl
    rw [hst, hs]
    rfl

/-- C6 witness: the payload shape at a concrete product with all optional
fields absent. -/
theorem payload_shape_script1_witness :
    (asdict ⟨"i", "t", "u", none, "TWD", none, none, "scrape"⟩).map Prod.fst
      = eightFieldNames ∧
    (asdict ⟨"i", "t", "u", none, "TWD", none, none, "scrape"⟩).lookup "price"
      = some Field.null ∧
    (asdict ⟨"i", "t", "u", none, "TWD", none, none, "scrape"⟩).lookup "image"
      = some Field.null ∧
    (asdict ⟨"i", "t", "u", none, "TWD", none, none, "scrape"⟩).lookup "stock"
      = some Field.null ∧
    (supabase_upsert_products ⟨some "https://store.example", some "key"⟩ true
      (PostOutcome.response 200 "") []).sent = ([] : List Product).map asdict :=
  payload_shape_script1 ⟨"i", "t", "u", none, "TWD", none, none, "scrape"⟩
    ⟨some "https://store.example", some "key"⟩ (PostOutcome.response 200 "") []
    (by decide) (by decide) rfl rfl rfl

end EJoy

namespace EJoy

/-- The middle success line is always part of `main`'s output. -/
theorem mainRun_success_line (mode : Mode) (ins : Bool) (env : Env1)
    (ra : Bool) (o : PostOutcome) :
    ("✅ 執行成功，共 " ++ toString (buildProducts mode).length ++ " 筆商品")
      ∈ (mainRun mode ins env ra o).output := by
  unfold mainRun
  dsimp only
  simp

/-- When the store returns no data, script 2's upsert logs the progress
line and the failure line. -/
theorem upsert2_fail_output (su m : String) (emsg : Option String)
    (ps : List RawRecord) (h : ps.isEmpty = false) :
    (upsert_products su m ⟨[], emsg⟩ ps).output =
      ["Upserting " ++ toString ps.length ++ " products into Supabase...",
        "Failed to upsert products. Response: " ++ emsg.getD "None"] := by
  unfold upsert_products
  rw [h, if_neg Bool.false_ne_true]
  rfl

/-- In a configured run of script 2 with a nonempty fetch, the console
output is the fetch log followed by the upsert log. -/
theorem script2_output_append (env2 : Env2) (r : RawRecord)
    (rs : List RawRecord) (resp : StoreResponse)
    (h3 : env2Missing env2 = false) :
    (script2Run env2 (FetchOutcome.ok (r :: rs)) resp).output =
      (fetch_products (env2.apiUrl.getD "") (FetchOutcome.ok (r :: rs))).output
        ++ (upsert_products (env2.supabaseUrl.getD "") (env2.memberId.getD "")
          resp (r :: rs)).output := by
  unfold script2Run
  rw [h3, if_neg Bool.false_ne_true]
  rfl

/-- C8 counterexample: script 2 mutates fetched records before sending
them: the record sent differs from the record as constructed by the fetch,
having gained a `member_id` field. -/
theorem record_mutated_before_send :
    (script2Run cexEnv2 (FetchOutcome.ok [cexRecord]) cexResp).sent.getD 0 []
      ≠ cexRecord ∧
    "member_id" ∈ ((script2Run cexEnv2 (FetchOutcome.ok [cexRecord]) cexResp).sent.getD 0 []).map Prod.fst ∧
    "member_id" ∉ cexRecord.map Prod.fst :=
  ⟨by decide, by decide, by decide⟩

/-- C8 (amended): script 1's records are sent exactly as constructed,
field for field; script 2 mutates each fetched record exactly once before
sending — setting `member_id` — and leaves every other field unchanged. -/
theorem records_unmutated_except_member_id (mode : Mode) (env : Env1)
    (o : PostOutcome) (su m k : String) (resp : StoreResponse)
    (r : RawRecord) (rs : List RawRecord)
    (h1 : truthy env.supabaseUrl = true) (h2 : truthy env.serviceKey = true)
    (hk : (k == "member_id") = false) :
    (mainRun mode true env true o).sent = (buildProducts mode).map asdict ∧
    (upsert_products su m resp (r :: rs)).sent = (r :: rs).map (addMember m) ∧
    ((upsert_products su m resp (r :: rs)).sent.getD 0 []).lookup k
      = r.lookup k ∧
    ((upsert_products su m resp (r :: rs)).sent.getD 0 []).lookup "member_id"
      = some (Field.str m) := by
  have hsent := upsert2_sent su m resp (r :: rs) rfl
  refine ⟨mainRun_sent mode env o h1 h2, hsent, ?_, ?_⟩
  · rw [hsent]
    exact lookup_addMember_ne m k r hk
  · rw [hsent]
    exact lookup_addMember_self m r

/-- C8 witness: the property at a concrete configured run and a concrete
fetched record, checking the `url` field is preserved. -/
theorem records_unmutated_except_member_id_witness :
    (mainRun Mode.scrape true ⟨some "https://store.example", some "key"⟩ true
      (PostOutcome.response 200 "")).sent = (buildProducts Mode.scrape).map asdict ∧
    (upsert_products "https://store.example" "m-1" cexResp [cexRecord]).sent
      = [cexRecord].map (addMember "m-1") ∧
    ((upsert_products "https://store.example" "m-1" cexResp [cexRecord]).sent.getD 0 []).lookup "url"
      = cexRecord.lookup "url" ∧
    ((upsert_products "https://store.example" "m-1" cexResp [cexRecord]).sent.getD 0 []).lookup "member_id"
      = some (Field.str "m-1") :=
  records_unmutated_except_member_id Mode.scrape
    ⟨some "https://store.example", some "key"⟩ (PostOutcome.response 200 "")
    "https://store.example" "m-1" "url" cexResp cexRecord []
    (by decide) (by decide) (by decide)

/-- C9 counterexample: script 2's fetch call is issued with no timeout at
all, so not every outbound HTTP call carries a 30-second bound. -/
theorem fetch_has_no_timeout :
    ((script2Run cexEnv2 (FetchOutcome.ok [cexRecord]) cexResp).requests.getD 0
      ⟨"", "", none⟩).method = "GET" ∧
    ((script2Run cexEnv2 (FetchOutcome.ok [cexRecord]) cexResp).requests.getD 0
      ⟨"", "", none⟩).timeout = none ∧
    (none : Option Nat) ≠ some 30 :=
  ⟨by decide, by decide, by decide⟩

/-- C9 (amended): script 1's upsert POST is the only call issued with the
30-second timeout; script 2's calls — the source-API GET and the store
write — carry no explicit timeout. -/
theorem timeout_only_on_script1_post (env : Env1) (o : PostOutcome)
    (ps : List Product) (req req2 : HttpRequest) (a su m : String)
    (f : FetchOutcome) (resp : StoreResponse) (r : RawRecord)
    (rs : List RawRecord)
    (h1 : truthy env.supabaseUrl = true) (h2 : truthy env.serviceKey = true)
    (hr : req ∈ (supabase_upsert_products env true o ps).requests)
    (hr2 : req2 ∈ (fetch_products a f).requests
      ++ (upsert_products su m resp (r :: rs)).requests) :
    req.timeout = some 30 ∧ req2.timeout = none := by
  constructor
  · rw [upsert1_requests env o ps h1 h2, List.mem_singleton] at hr
    subst hr
    rfl
  · have hf : (fetch_products a f).requests = [⟨"GET", a, none⟩] := by
      cases f <;> rfl
    rw [hf, upsert2_requests su m resp (r :: rs) rfl] at hr2
    simp only [List.mem_append, List.mem_singleton] at hr2
    rcases hr2 with h | h <;> (subst h; rfl)

/-- C9 witness: the two requests of a concrete run each carry the stated
timeout. -/
theorem timeout_only_on_script1_post_witness :
    (⟨"POST", "https://store.example" ++ "/rest/v1/products", some 30⟩ : HttpRequest).timeout
      = some 30 ∧
    (⟨"GET", "https://api.example", none⟩ : HttpRequest).timeout = none :=
  timeout_only_on_script1_post ⟨some "https://store.example", some "key"⟩
    (PostOutcome.response 200 "") [] _ _ "https://api.example"
    "https://store.example" "m-1" (FetchOutcome.ok []) cexResp cexRecord []
    (by decide) (by decide) (by decide) (by decide)

/-- C4: in script 1, both write-failure shapes — an exception during the
POST and a non-2xx status — are caught and logged, nothing escapes, and
the run still exits 0 and prints its production-success line; in script 2,
a store write failure (empty `response.data`) is logged as an error while
the run still exits 0; the only nonzero exit is missing startup
configuration in script 2. -/
theorem write_failures_swallowed (env : Env1) (mode : Mode)
    (products : List Product) (msg body : String) (s : Nat)
    (env2 env2b : Env2) (r : RawRecord) (rs : List RawRecord)
    (emsg : Option String) (f fb : FetchOutcome) (resp respb : StoreResponse)
    (h1 : truthy env.supabaseUrl = true) (h2 : truthy env.serviceKey = true)
    (hs : 400 ≤ s) (h3 : env2Missing env2 = false)
    (hb : env2Missing env2b = true) :
    (supabase_upsert_products env true (PostOutcome.raised msg) products).raised = false ∧
    ("[Supabase] upsert 失敗: " ++ msg)
      ∈ (supabase_upsert_products env true (PostOutcome.raised msg) products).output ∧
    (supabase_upsert_products env true (PostOutcome.response s body) products).raised = false ∧
    ("[Supabase] upsert 失敗: " ++ toString s)
      ∈ (supabase_upsert_products env true (PostOutcome.response s body) products).output ∧
    (mainRun mode true env true (PostOutcome.raised msg)).exitCode = 0 ∧
    ("✅ 執行成功，共 " ++ toString (buildProducts mode).length ++ " 筆商品")
      ∈ (mainRun mode true env true (PostOutcome.raised msg)).output ∧
    (script2Run env2 (FetchOutcome.ok (r :: rs)) ⟨[], emsg⟩).exitCode = 0 ∧
    ("Failed to upsert products. Response: " ++ emsg.getD "None")
      ∈ (script2Run env2 (FetchOutcome.ok (r :: rs)) ⟨[], emsg⟩).output ∧
    (script2Run env2 f resp).exitCode = 0 ∧
    (script2Run env2b fb respb).exitCode = 1 := by
  refine ⟨upsert1_raised env true (PostOutcome.raised msg) products, ?_,
    upsert1_raised env true (PostOutcome.response s body) products, ?_,
    mainRun_exitCode mode true env true (PostOutcome.raised msg),
    mainRun_success_line mode true env true (PostOutcome.raised msg),
    script2Run_exitCode env2 (FetchOutcome.ok (r :: rs)) ⟨[], emsg⟩ h3, ?_,
    script2Run_exitCode env2 f resp h3,
    script2Run_exitCode_missing env2b fb respb hb⟩
  · rw [upsert1_configured_raised env msg products h1 h2]
    exact List.mem_singleton.mpr rfl
  · rw [upsert1_configured_response_fail env s body products h1 h2 hs]
    simp
  · rw [script2_output_append env2 r rs ⟨[], emsg⟩ h3,
      upsert2_fail_output (env2.supabaseUrl.getD "") (env2.memberId.getD "")
        emsg (r :: rs) rfl]
    simp

/-- C4 witness: the swallowed-failure behaviour at concrete failing
outcomes: a network error and a 500 status in script 1, an empty-data
store response in script 2, and a missing-configuration startup in
script 2. -/
theorem write_failures_swallowed_witness :
    (supabase_upsert_products ⟨some "https://store.example", some "key"⟩ true
      (PostOutcome.raised "boom") []).raised = false ∧
    ("[Supabase] upsert 失敗: " ++ "boom")
      ∈ (supabase_upsert_products ⟨some "https://store.example", some "key"⟩ true
        (PostOutcome.raised "boom") []).output ∧
    (supabase_upsert_products ⟨some "https://store.example", some "key"⟩ true
      (PostOutcome.response 500 "oops") []).raised = false ∧
    ("[Supabase] upsert 失敗: " ++ toString 500)
      ∈ (supabase_upsert_products ⟨some "https://store.example", some "key"⟩ true
        (PostOutcome.response 500 "oops") []).output ∧
    (mainRun Mode.scrape true ⟨some "https://store.example", some "key"⟩ true
      (PostOutcome.raised "boom")).exitCode = 0 ∧
    ("✅ 執行成功，共 " ++ toString (buildProducts Mode.scrape).length ++ " 筆商品")
      ∈ (mainRun Mode.scrape true ⟨some "https://store.example", some "key"⟩ true
        (PostOutcome.raised "boom")).output ∧
    (script2Run cexEnv2 (FetchOutcome.ok [cexRecord]) ⟨[], some "dup"⟩).exitCode = 0 ∧
    ("Failed to upsert products. Response: " ++ (some "dup").getD "None")
      ∈ (script2Run cexEnv2 (FetchOutcome.ok [cexRecord]) ⟨[], some "dup"⟩).output ∧
    (script2Run cexEnv2 (FetchOutcome.reqError "down") cexResp).exitCode = 0 ∧
    (script2Run ⟨some "", some "k", some "m", some "a"⟩ (FetchOutcome.ok [])
      cexResp).exitCode = 1 :=
  write_failures_swallowed ⟨some "https://store.example", some "key"⟩
    Mode.scrape [] "boom" "oops" 500 cexEnv2
    ⟨some "", some "k", some "m", some "a"⟩ cexRecord [] (some "dup")
    (FetchOutcome.reqError "down") (FetchOutcome.ok []) cexResp cexResp
    (by decide) (by decide) (by decide) (by decide) (by decide)

end EJoy
